import Mathlib

/-!
Verification of the `jvcprojector` device-communication core
(`src/jvcprojector/device.py`, `src/jvcprojector/command.py`) against its
natural-language specification.

The Python code is shallowly embedded: bytes become `List Nat` (each element a
byte value), strings are Lean `String`s (protocol opcodes and payloads are
ASCII, so `encode`/`decode` is modelled as `Char.toNat`/`Char.ofNat`), the
asyncio event loop is modelled by explicit state passing over a virtual
integer clock counting milliseconds (so the source's fractional-second sleep
literals stay executable), and the socket is modelled by scripts of read results,
exactly as the repository's own test-suite mocks it (`tests/conftest.py`).
-/

namespace Jvc

/-- A byte string, each element a byte value `< 256`. -/
abbrev Bytes := List Nat

/-- `str.encode()` for the ASCII strings used by the protocol. -/
def strBytes (s : String) : Bytes := s.data.map Char.toNat

/-- ASCII decoding of a byte string (all bytes `< 128`). -/
def asciiString (b : Bytes) : String := ⟨b.map Char.ofNat⟩

/-- Lowercase hex character for a value `< 16` (as in Python `bytes.hex()` /
`hexdigest()`). -/
def hexChar (n : Nat) : Char := if n < 10 then Char.ofNat (48 + n) else Char.ofNat (87 + n)

/-- Lowercase hex dump of a byte string: two hex chars per byte. -/
def hexOfBytes (b : Bytes) : String := ⟨b.foldr (fun x acc => hexChar (x / 16) :: hexChar (x % 16) :: acc) []⟩

/-! ### Protocol tokens (command.py lines 14-31) -/

def PJOK : Bytes := strBytes "PJ_OK"
def PJNG : Bytes := strBytes "PJ_NG"
def PJREQ : Bytes := strBytes "PJREQ"
def PJACK : Bytes := strBytes "PJACK"
def PJNAK : Bytes := strBytes "PJNAK"

def UNIT_ID : Bytes := [0x89, 0x01]
def HEAD_OP : Bytes := 0x21 :: UNIT_ID
def HEAD_REF : Bytes := 0x3f :: UNIT_ID
def HEAD_RES : Bytes := 0x40 :: UNIT_ID
def HEAD_ACK : Bytes := 0x06 :: UNIT_ID
def HEAD_LEN : Nat := 1 + UNIT_ID.length
def END : Bytes := [0x0a]

def AUTH_SALT : String := "JVCKWPJ"

/-- `const.ON` (const.py line 8). -/
def constON : String := "on"

/-! ### SHA-256 (FIPS 180-4), executable over `Nat` with explicit `% 2^32`.

Used by `JvcDevice._password_to_sha256` (device.py lines 58-64). -/

def w32 (x : Nat) : Nat := x % 4294967296

def rotr (n x : Nat) : Nat := w32 (x / 2 ^ n + x % 2 ^ n * 2 ^ (32 - n))

def shr (n x : Nat) : Nat := x / 2 ^ n

def bsig0 (x : Nat) : Nat := (rotr 2 x) ^^^ (rotr 13 x) ^^^ (rotr 22 x)
def bsig1 (x : Nat) : Nat := (rotr 6 x) ^^^ (rotr 11 x) ^^^ (rotr 25 x)
def ssig0 (x : Nat) : Nat := (rotr 7 x) ^^^ (rotr 18 x) ^^^ (shr 3 x)
def ssig1 (x : Nat) : Nat := (rotr 17 x) ^^^ (rotr 19 x) ^^^ (shr 10 x)

def ch (x y z : Nat) : Nat := (x &&& y) ^^^ ((x ^^^ 4294967295) &&& z)
def maj (x y z : Nat) : Nat := (x &&& y) ^^^ (x &&& z) ^^^ (y &&& z)

def shaK : List Nat :=
  [1116352408, 1899447441, 3049323471, 3921009573, 961987163, 1508970993,
   2453635748, 2870763221, 3624381080, 310598401, 607225278, 1426881987,
   1925078388, 2162078206, 2614888103, 3248222580, 3835390401, 4022224774,
   264347078, 604807628, 770255983, 1249150122, 1555081692, 1996064986,
   2554220882, 2821834349, 2952996808, 3210313671, 3336571891, 3584528711,
   113926993, 338241895, 666307205, 773529912, 1294757372, 1396182291,
   1695183700, 1986661051, 2177026350, 2456956037, 2730485921, 2820302411,
   3259730800, 3345764771, 3516065817, 3600352804, 4094571909, 275423344,
   430227734, 506948616, 659060556, 883997877, 958139571, 1322822218,
   1537002063, 1747873779, 1955562222, 2024104815, 2227730452, 2361852424,
   2428436474, 2756734187, 3204031479, 3329325298]

/-- Working state: eight 32-bit words. -/
structure Hash8 where
  a : Nat
  b : Nat
  c : Nat
  d : Nat
  e : Nat
  f : Nat
  g : Nat
  h : Nat

def shaH0 : Hash8 :=
  ⟨1779033703, 3144134277, 1013904242, 2773480762,
   1359893119, 2600822924, 528734635, 1541459225⟩

/-- 64-bit big-endian encoding (for the padded bit length). -/
def be64 (n : Nat) : Bytes :=
  [n / 2 ^ 56 % 256, n / 2 ^ 48 % 256, n / 2 ^ 40 % 256, n / 2 ^ 32 % 256,
   n / 2 ^ 24 % 256, n / 2 ^ 16 % 256, n / 2 ^ 8 % 256, n % 256]

/-- 32-bit big-endian encoding of one word. -/
def be32 (n : Nat) : Bytes := [n / 2 ^ 24 % 256, n / 2 ^ 16 % 256, n / 2 ^ 8 % 256, n % 256]

/-- SHA-256 message padding: append `0x80`, zeros, and the 64-bit bit length. -/
def shaPad (msg : Bytes) : Bytes :=
  msg ++ 0x80 :: List.replicate ((64 - (msg.length + 9) % 64) % 64) 0 ++ be64 (8 * msg.length)

/-- Big-endian 32-bit words of a block. -/
def toWords : Bytes → List Nat
  | a :: b :: c :: d :: rest => (a * 2 ^ 24 + b * 2 ^ 16 + c * 2 ^ 8 + d) :: toWords rest
  | _ => []

/-- Message-schedule extension, keeping the schedule reversed (newest first). -/
def extendRev (rws : List Nat) : Nat → List Nat
  | 0 => rws
  | n + 1 =>
    let r := extendRev rws n
    w32 (ssig1 (r.getD 1 0) + r.getD 6 0 + ssig0 (r.getD 14 0) + r.getD 15 0) :: r

/-- One round of the SHA-256 compression function. -/
def round1 (st : Hash8) (kw : Nat × Nat) : Hash8 :=
  let t1 := w32 (st.h + bsig1 st.e + ch st.e st.f st.g + kw.1 + kw.2)
  let t2 := w32 (bsig0 st.a + maj st.a st.b st.c)
  ⟨w32 (t1 + t2), st.a, st.b, st.c, w32 (st.d + t1), st.e, st.f, st.g⟩

def add8 (x y : Hash8) : Hash8 :=
  ⟨w32 (x.a + y.a), w32 (x.b + y.b), w32 (x.c + y.c), w32 (x.d + y.d),
   w32 (x.e + y.e), w32 (x.f + y.f), w32 (x.g + y.g), w32 (x.h + y.h)⟩

/-- Process one 64-byte block. -/
def shaBlock (st : Hash8) (block : Bytes) : Hash8 :=
  let ws := (extendRev (toWords block).reverse 48).reverse
  add8 st ((shaK.zip ws).foldl round1 st)

/-- Process the padded message 64 bytes at a time (`fuel` = number of blocks). -/
def shaBlocksGo (st : Hash8) (l : Bytes) : Nat → Hash8
  | 0 => st
  | n + 1 => shaBlocksGo (shaBlock st (l.take 64)) (l.drop 64) n

/-- SHA-256 digest (32 bytes) of a byte string. -/
def sha256 (msg : Bytes) : Bytes :=
  let p := shaPad msg
  let st := shaBlocksGo shaH0 p (p.length / 64)
  be32 st.a ++ be32 st.b ++ be32 st.c ++ be32 st.d ++ be32 st.e ++ be32 st.f ++ be32 st.g ++ be32 st.h

/-- `hashlib.sha256(x).hexdigest()`: lowercase hex of the digest. -/
def sha256hex (msg : Bytes) : String := hexOfBytes (sha256 msg)

set_option maxRecDepth 8000

/-- Sanity check against the FIPS 180-4 test vector for "abc". -/
theorem sha256_abc :
    sha256hex (strBytes "abc") =
      "ba7816bf8f01cfea414140de5dae2223b00361a396177a9cb410ff61f20015ad" := by
  decide

/-! ### Credential construction

`JvcDevice.__init__` (device.py lines 49-51): `self._auth = b""`, and when a
password is configured,
`self._auth = struct.pack(f"{max(10, len(password))}s", password.encode())`,
i.e. the encoded password null-padded on the right to `max 10 len` bytes. -/

def mkAuth (password : String) : Bytes :=
  if password = "" then []
  else
    let pw := strBytes password
    pw ++ List.replicate (max 10 pw.length - pw.length) 0

/-- `JvcDevice._password_to_sha256` (device.py lines 58-64):
`val = f"{password.decode()}JVCKWPJ"; return
hashlib.sha256(val.encode()).hexdigest().encode()`.  Its argument at the sole
call site (line 173) is `self._auth`, the null-padded credential. -/
def passwordToSha256 (password : Bytes) : Bytes :=
  strBytes (sha256hex (password ++ strBytes AUTH_SALT))

/-! ### Command response decoding (`JvcCommand`, command.py lines 33-88)

The formatter registry (command.py lines 122-182) maps regex patterns of the
shape `opcode(.)`, `opcode(..)`, `opcode(.+)` (and one `(..)(..)(..)(..)`
pattern handled by a callable over the whole remainder) to a list, a dict, or
a callable.  The registry's patterns are modelled as an opcode prefix plus an
argument shape, and the registry is kept as a parameter: the `CMD_*`/`VAL_*`
constants the concrete table refers to live in a version of `const.py` not
present in this snapshot of the source. -/

/-- The argument shape of a registered pattern: `(.)`/`(..)`/`(..)(..)(..)(..)`
(a fixed number of payload characters) or `(.+)` (at least one). -/
inductive ArgPat
  | exactly (n : Nat)
  | onePlus

/-- Whether the anchored pattern `^opcode<arg>$` matches the part of the
response after the opcode. -/
def ArgPat.matchesArg : ArgPat → String → Bool
  | .exactly n, r => r.length == n
  | .onePlus, r => r.length != 0

/-- A formatter value (command.py line 122 type: `list | dict | Callable`).
A callable returning `none` models a raised exception. -/
inductive Formatter
  | idx (l : List String)
  | map (m : List (String × String))
  | fn (f : String → Option String)

structure FmtEntry where
  opcode : String
  arg : ArgPat
  fmt : Formatter

def strDrop (s : String) (n : Nat) : String := ⟨s.data.drop n⟩

def strStartsWith (s pre : String) : Bool := pre.data.isPrefixOf s.data

/-- One hex digit (Python `int(_, 16)` accepts both cases). -/
def hexDigit? (c : Char) : Option Nat :=
  if 48 ≤ c.toNat ∧ c.toNat ≤ 57 then some (c.toNat - 48)
  else if 97 ≤ c.toNat ∧ c.toNat ≤ 102 then some (c.toNat - 87)
  else if 65 ≤ c.toNat ∧ c.toNat ≤ 70 then some (c.toNat - 55)
  else none

def hexNatGo : List Char → Nat → Option Nat
  | [], acc => some acc
  | c :: cs, acc =>
    match hexDigit? c with
    | some d => hexNatGo cs (acc * 16 + d)
    | none => none

/-- Python `int(s, 16)` as a partial function: an optional sign followed by a
non-empty run of hex digits (the rarely-used `0x` prefix and `_` separators
are not modelled). `none` models a raised `ValueError`. -/
def hexInt? (s : String) : Option Int :=
  match s.data with
  | [] => none
  | '-' :: cs => if cs.isEmpty then none else (hexNatGo cs 0).map (fun n => -(n : Int))
  | '+' :: cs => if cs.isEmpty then none else (hexNatGo cs 0).map (fun n => (n : Int))
  | cs => (hexNatGo cs 0).map (fun n => (n : Int))

/-- Apply a matched formatter to the captured group (command.py lines 55-76).
`none` means the formatter failed (non-integer index, index out of range,
unmapped dict key, or callable exception), in which case the property falls
back to the raw value. -/
def applyFmt : Formatter → String → Option String
  | .idx l, m1 =>
    (match hexInt? m1 with
     | some i => if h : 0 ≤ i ∧ i.toNat < l.length then some (l.get ⟨i.toNat, h.2⟩) else none
     | none => none)
  | .map d, m1 => d.lookup m1
  | .fn f, m1 => f m1

/-- First registry entry whose anchored pattern matches `res`, with the
captured remainder (the loop over `self.formatters.items()` with `re.search`,
command.py lines 52-54). -/
def findMatch : List FmtEntry → String → Option (FmtEntry × String)
  | [], _ => none
  | e :: es, res =>
    if strStartsWith res e.opcode && e.arg.matchesArg (strDrop res e.opcode.length) then
      some (e, strDrop res e.opcode.length)
    else findMatch es res

/-- A command value object (command.py lines 36-41); the mutable `ack` and
`_response` fields are carried separately by the executor model. -/
structure Cmd where
  code : String
  is_ref : Bool

/-- `JvcCommand.is_power` (command.py lines 85-88). -/
def Cmd.is_power (c : Cmd) : Bool := strStartsWith c.code "PW"

/-- The `JvcCommand.response` property (command.py lines 43-78): `none` unless
the command is a query with a stored raw response; otherwise decode
`res = code + response` through the first matching formatter, falling back to
the raw value `res[len(code):]` when none matches or the match fails. -/
def respond (fs : List FmtEntry) (cmd : Cmd) (stored : Option String) : Option String :=
  if !cmd.is_ref then none
  else
    match stored with
    | none => none
    | some p =>
      let res := cmd.code ++ p
      let val := strDrop res cmd.code.length
      match findMatch fs res with
      | none => some val
      | some (e, m1) => some ((applyFmt e.fmt m1).getD val)

theorem strDrop_append (s t : String) : strDrop (s ++ t) s.length = t := by
  cases s with | mk l =>
  cases t with | mk m =>
  show String.mk ((l ++ m).drop l.length) = String.mk m
  rw [List.drop_left]

/-! ### The device executor (`JvcDevice`, device.py)

The asyncio code is embedded as explicit state passing: a virtual
rational-valued clock advanced only by `asyncio.sleep`, and a scripted
connection in the style of the repository's own mock (`tests/conftest.py`):
one list of results per primitive (`connect`, `read`, `readline`), consumed
in order.  A scheduled-but-not-yet-run keepalive task is recorded as
`keepalive = some delay`. -/

/-- device.py line 35. -/
def KEEPALIVE_TTL : Nat := 2

/-- The exceptions the embedded code raises.  Constructors carry the dynamic
parts of the Python exception messages. -/
inductive Err
  | timeout                                    -- asyncio.TimeoutError
  | connRefused                                -- ConnectionRefusedError
  | assertFail                                 -- AssertionError
  | auth                                       -- JvcProjectorAuthError (line 178)
  | handshakeInitInvalid                       -- JvcProjectorCommandError "Handshake init invalid" (line 131)
  | handshakeAckInvalid                        -- JvcProjectorCommandError "Handshake ack invalid" (line 181)
  | ackInvalid (data : Bytes) (code : String)  -- JvcProjectorCommandError "Response ack invalid '{data}' for '{code}'" (lines 207-210)
  | refInvalid (data : Bytes) (code : String)  -- JvcProjectorCommandError "Ref ack invalid '{data}' for '{code}'" (lines 221-224)
  | handshakeInitTimeout                       -- JvcProjectorConnectError "Handshake init timeout" (line 147)
  | handshakeAckTimeout                        -- JvcProjectorConnectError "Handshake ack timeout" (line 184)
  | retriesExceeded                            -- JvcProjectorConnectError "Retries exceeded" (line 151)
deriving DecidableEq

/-- The scripted device side of the connection. -/
structure Env where
  connects : List Bool          -- per `conn.connect()` call: true = ok, false = ConnectionRefusedError
  reads : List (Option Bytes)   -- per `conn.read(n)` call: none = TimeoutError
  readlines : List (Option Bytes)
deriving DecidableEq

/-- The observable state of one `JvcDevice` plus its execution trace.  The
virtual clock counts integer milliseconds, so the source's fractional-second
literals stay executable: 0.75 s = 750, 0.25 s = 250, 0.2 s = 200. -/
structure St where
  connected : Bool
  keepalive : Option Nat   -- pending `_disconnect(delay)` task, if any
  last : ℤ                 -- `self._last`
  now : ℤ                  -- virtual clock (milliseconds)
  env : Env
  writes : List Bytes      -- every `conn.write` payload, in order
  connectTimes : List ℤ    -- clock value at each `conn.connect()` call
  greetReads : Nat         -- number of greeting reads issued by `_connect`
  sleeps : List ℤ          -- every `asyncio.sleep` duration, in order
deriving DecidableEq

/-- The execution monad: state passing with exceptions; the state survives a
raised exception. -/
def M (α : Type) := St → Except Err α × St

instance : Monad M where
  pure a := fun s => (.ok a, s)
  bind x f := fun s =>
    match x s with
    | (.ok a, s') => f a s'
    | (.error e, s') => (.error e, s')

def Mthrow {α : Type} (e : Err) : M α := fun s => (.error e, s)

def getSt : M St := fun s => (.ok s, s)

def modSt (f : St → St) : M Unit := fun s => (.ok (), f s)

/-- `asyncio.sleep d` (`d` in milliseconds): advance the clock. -/
def sleepSt (d : ℤ) (s : St) : St := {s with now := s.now + d, sleeps := s.sleeps ++ [d]}

def sleepPrim (d : ℤ) : M Unit := fun s => (.ok (), sleepSt d s)

/-- `conn.write(b)`. -/
def writeSt (b : Bytes) (s : St) : St := {s with writes := s.writes ++ [b]}

def writePrim (b : Bytes) : M Unit := fun s => (.ok (), writeSt b s)

/-- `conn.connect()`: records the attempt time, then succeeds or raises
`ConnectionRefusedError` as scripted (an exhausted script succeeds). -/
def connPrim : M Unit := fun s =>
  let s := {s with connectTimes := s.connectTimes ++ [s.now]}
  match s.env.connects with
  | [] => (.ok (), {s with connected := true})
  | b :: rest =>
    let s := {s with env := {s.env with connects := rest}}
    if b then (.ok (), {s with connected := true})
    else (.error .connRefused, s)

/-- `conn.read(n)`: next scripted chunk, or `TimeoutError` (an exhausted
script times out). -/
def readPrim (_n : Nat) : M Bytes := fun s =>
  match s.env.reads with
  | [] => (.error .timeout, s)
  | r :: rest =>
    let s := {s with env := {s.env with reads := rest}}
    match r with
    | some d => (.ok d, s)
    | none => (.error .timeout, s)

/-- The greeting read of `_connect` (line 122), counted for the handshake
retry analysis. -/
def readGreet : M Bytes := fun s => readPrim PJOK.length {s with greetReads := s.greetReads + 1}

/-- `conn.readline()`. -/
def readlinePrim : M Bytes := fun s =>
  match s.env.readlines with
  | [] => (.error .timeout, s)
  | r :: rest =>
    let s := {s with env := {s.env with readlines := rest}}
    match r with
    | some d => (.ok d, s)
    | none => (.error .timeout, s)

/-- `try: body except asyncio.TimeoutError: handler` — catches only the
timeout exception. -/
def catchTimeout {α : Type} (body handler : M α) : M α := fun s =>
  match body s with
  | (.error .timeout, s') => handler s'
  | r => r

/-- `JvcDevice._rate_limit` (device.py lines 153-158); the 0.75 s floor is
750 ms. -/
def rateLimit : M Unit := fun s =>
  let elapsed := s.now - s.last
  let s' := if elapsed < 750 then sleepSt (750 - elapsed) s else s
  (.ok (), {s' with last := s'.now})

/-- The tail of `_authenticate` (lines 177-181): second nak is fatal, anything
else but ack is a protocol error. -/
def checkAck (r : Bytes) : Except Err Unit :=
  if r = PJNAK then .error .auth
  else if r ≠ PJACK then .error .handshakeAckInvalid
  else .ok ()

/-- The `except asyncio.TimeoutError` wrapper of `_authenticate`
(device.py lines 183-184): a timeout from either read becomes the
"Handshake ack timeout" connect error. -/
def authWrap (p : Except Err Unit × St) : Except Err Unit × St :=
  match p with
  | (.error .timeout, sx) => (.error .handshakeAckTimeout, sx)
  | other => other

/-- `JvcDevice._authenticate` (device.py lines 160-184): write the request
with the stored credential; on nak retry once with the SHA-256 credential;
validate the final reply; a timeout on either read becomes a connect error. -/
def authenticate (auth : Bytes) : M Unit := fun s =>
  let s := writeSt (PJREQ ++ auth) s
  authWrap
    (match readPrim PJACK.length s with
    | (.error e, s1) => (.error e, s1)
    | (.ok r, s1) =>
      if r = PJNAK then
        let s2 := writeSt (PJREQ ++ passwordToSha256 auth) s1
        match readPrim PJACK.length s2 with
        | (.error e, s3) => (.error e, s3)
        | (.ok r2, s3) => (checkAck r2, s3)
      else (checkAck r, s1))

/-- One iteration of the `for retry in range(MAX_RETRIES)` body of `_connect`
(device.py lines 117-149), with its `except` clauses; `fuel` counts the
remaining iterations and `retry` the current index. -/
def connectAttemptBody (auth : Bytes) (retry : Nat) : M Bool := do
  connPrim
  let data ← readGreet
  if data = PJNG then do
    sleepPrim (250 * (retry + 1))   -- `0.25 * (retry + 1)` seconds
    pure false
  else if data ≠ PJOK then Mthrow .handshakeInitInvalid
  else do
    authenticate auth
    pure true

def connectAttempts (auth : Bytes) : Nat → Nat → M Unit
  | 0, _ => Mthrow .retriesExceeded
  | fuel + 1, retry => fun s =>
    match connectAttemptBody auth retry s with
    | (.ok true, s') => (.ok (), s')
    | (.ok false, s') => connectAttempts auth fuel (retry + 1) s'
    | (.error .connRefused, s') =>
      connectAttempts auth fuel (retry + 1) (sleepSt (200 * (retry + 1)) s')   -- `0.2 * (retry + 1)` s
    | (.error .timeout, s') => (.error .handshakeInitTimeout, s')
    | (.error e, s') => (.error e, s')

/-- `JvcDevice._connect` (device.py lines 110-151), `MAX_RETRIES = 10`. -/
def connectDev (auth : Bytes) : M Unit := do
  let s ← getSt
  if s.connected then Mthrow .assertFail   -- `assert not self._conn.is_connected()`
  else do
    rateLimit
    connectAttempts auth 10 0

/-- The mutable per-command fields `ack` / `_response`
(command.py lines 40-41), as produced by one executed command. -/
structure CmdRes where
  ack : Bool
  resp : Option String
deriving DecidableEq

/-- A command that was never executed (or timed out before acknowledge). -/
def noRes : CmdRes := ⟨false, none⟩

/-- `data.decode()` with the `data.hex()` fallback of device.py lines 226-230
(payloads are modelled as ASCII; a byte ≥ 128 models an undecodable reply). -/
def decodeResp (data payload : Bytes) : String :=
  if payload.all (· < 128) then asciiString payload else hexOfBytes data

/-- `JvcDevice._send` (device.py lines 186-232). -/
def sendOne (cmd : Cmd) : M CmdRes := do
  let s ← getSt
  if !s.connected then Mthrow .assertFail          -- `assert self._conn.is_connected()`
  else if cmd.code.length < 2 then Mthrow .assertFail  -- `assert len(cmd.code) >= 2`
  else do
    let code := strBytes cmd.code
    writePrim ((if cmd.is_ref then HEAD_REF else HEAD_OP) ++ code ++ END)
    catchTimeout
      (do
        let data ← readlinePrim
        if !(HEAD_ACK ++ code.take 2).isPrefixOf data then
          Mthrow (.ackInvalid data cmd.code)
        else if cmd.is_ref then
          catchTimeout
            (do
              let rdata ← readlinePrim
              if !(HEAD_RES ++ code.take 2).isPrefixOf rdata then
                Mthrow (.refInvalid rdata cmd.code)
              else
                pure ⟨true, some (decodeResp rdata ((rdata.drop (HEAD_LEN + 2)).dropLast))⟩)
            (pure noRes)   -- ref response timeout: return without setting ack (lines 215-217)
        else pure ⟨true, none⟩)
      (pure noRes)         -- ack timeout: log and return without setting ack (lines 201-203)

/-- The per-iteration break test of the send loop (device.py line 96):
`is_refresh and cmds[0].response != const.ON`. -/
def refreshStop (fs : List FmtEntry) (isRefresh : Bool) (c0 : Cmd) (r0 : CmdRes) : Bool :=
  isRefresh && !(respond fs c0 r0.resp == some constON)

/-- The send loop after the first command: `prev` is the last attempted
command's result so far, `c0`/`r0` the first command and its result
(`cmds[0]` is re-examined by the break test each iteration); after every
command comes the 0.2 s (200 ms) inter-command throttle (device.py line 94). -/
def runRest (fs : List FmtEntry) (isRefresh : Bool) (c0 : Cmd) (r0 : CmdRes) (prev : CmdRes) :
    List Cmd → M (List CmdRes × CmdRes)
  | [] => fun s => (.ok ([], prev), s)
  | c :: cs => fun s =>
    match sendOne c s with
    | (.error e, s1) => (.error e, s1)
    | (.ok r, s1) =>
      let s2 := sleepSt 200 s1
      if refreshStop fs isRefresh c0 r0 then (.ok (r :: cs.map (fun _ => noRes), r), s2)
      else
        match runRest fs isRefresh c0 r0 r cs s2 with
        | (.error e, s3) => (.error e, s3)
        | (.ok (rs, lastR), s3) => (.ok (r :: rs, lastR), s3)

/-- The `for cmd in cmds` loop of `send` (device.py lines 89-97), returning
each command's final fields and the last attempted command's result. -/
def runBatch (fs : List FmtEntry) (isRefresh : Bool) :
    List Cmd → M (List CmdRes × Option CmdRes)
  | [] => fun s => (.ok ([], none), s)
  | c0 :: cs => fun s =>
    match sendOne c0 s with
    | (.error e, s1) => (.error e, s1)
    | (.ok r0, s1) =>
      let s2 := sleepSt 200 s1
      if refreshStop fs isRefresh c0 r0 then (.ok (r0 :: cs.map (fun _ => noRes), some r0), s2)
      else
        match runRest fs isRefresh c0 r0 r0 cs s2 with
        | (.error e, s3) => (.error e, s3)
        | (.ok (rs, lastR), s3) => (.ok (r0 :: rs, some lastR), s3)

/-- `is_refresh` (device.py line 70):
`len(cmds) > 1 and cmds[0].is_ref and cmds[0].is_power`. -/
def isRefreshBatch : List Cmd → Bool
  | [] => false
  | c0 :: cs => !cs.isEmpty && c0.is_ref && c0.is_power

/-- `JvcDevice._disconnect` (device.py lines 240-246); `delay` is in seconds
(`KEEPALIVE_TTL = 2`), slept as `1000 * delay` ms. -/
def disconnectTask (delay : Nat) : M Unit := do
  if delay ≠ 0 then sleepPrim (1000 * (delay : ℤ))
  modSt fun s => {s with keepalive := none, connected := false}

/-- The `try` body of `send` (device.py lines 83-97): connect if needed, then
run the batch. -/
def sendBody (auth : Bytes) (fs : List FmtEntry) (isRefresh : Bool) (cmds : List Cmd) :
    M (List CmdRes × Option CmdRes) := fun s =>
  if !s.connected then
    match connectDev auth s with
    | (.error e, s1) => (.error e, s1)
    | (.ok _, s1) => runBatch fs isRefresh cmds s1
  else runBatch fs isRefresh cmds s

/-- The `except`/`finally` of `send` (device.py lines 98-108): any failure
disables keepalive; then schedule a delayed disconnect iff keepalive survived
and the last attempted command was acknowledged, else disconnect now. -/
def sendFinish (keepalive : Bool) (r : Except Err (List CmdRes × Option CmdRes)) (s2 : St) :
    Except Err (List CmdRes × Option CmdRes) × St :=
  match r with
  | .ok (rs, lastR) =>
    if keepalive && (match lastR with | some cr => cr.ack | none => false) then
      (.ok (rs, lastR), {s2 with keepalive := some KEEPALIVE_TTL})
    else
      (.ok (rs, lastR), (disconnectTask 0 s2).2)
  | .error e => (.error e, (disconnectTask 0 s2).2)

/-- `JvcDevice.send` (device.py lines 66-108).  The body runs under the
device lock; lines 72-81 cancel a pending keepalive task, or mark a refresh
batch ineligible to start a new keepalive window.  A scheduled keepalive task
is recorded, not run. -/
def send (auth : Bytes) (fs : List FmtEntry) (cmds : List Cmd) :
    M (List CmdRes × Option CmdRes) := fun s0 =>
  let keepalive := if s0.keepalive.isSome then true else !(isRefreshBatch cmds)
  let s1 := if s0.keepalive.isSome then {s0 with keepalive := none} else s0
  let p := sendBody auth fs (isRefreshBatch cmds) cmds s1
  sendFinish keepalive p.1 p.2

/-- A fresh device state over a given connection script; the clock starts
well past the rate-limit floor, as a real wall clock does. -/
def mkSt (env : Env) : St :=
  { connected := false, keepalive := none, last := 0, now := 10000, env := env,
    writes := [], connectTimes := [], greetReads := 0, sleeps := [] }

/-! ### Evaluation lemmas for the execution monad -/

theorem M_bind_apply {α β : Type} (x : M α) (f : α → M β) (s : St) :
    (x >>= f) s =
      match x s with
      | (.ok a, s') => f a s'
      | (.error e, s') => (.error e, s') := rfl

theorem M_pure_apply {α : Type} (a : α) (s : St) : (pure a : M α) s = (.ok a, s) := rfl

theorem M_step_ok {α β : Type} {x : M α} {f : α → M β} {s s' : St} {a : α}
    (hx : x s = (.ok a, s')) : (x >>= f) s = f a s' := by
  rw [M_bind_apply, hx]

theorem M_step_err {α β : Type} {x : M α} {f : α → M β} {s s' : St} {e : Err}
    (hx : x s = (.error e, s')) : (x >>= f) s = (.error e, s') := by
  rw [M_bind_apply, hx]

theorem disconnectTask_zero (s : St) :
    disconnectTask 0 s = (.ok (), {s with keepalive := none, connected := false}) := rfl

theorem sendFinish_fst (k : Bool) (r : Except Err (List CmdRes × Option CmdRes)) (s2 : St) :
    (sendFinish k r s2).1 = r := by
  rcases r with e | ⟨rs, lastR⟩
  · rfl
  · simp only [sendFinish]
    split <;> rfl

theorem sendFinish_closed_or_scheduled (k : Bool) (r : Except Err (List CmdRes × Option CmdRes))
    (s2 : St) :
    (sendFinish k r s2).2.connected = false ∨
      (sendFinish k r s2).2.keepalive = some KEEPALIVE_TTL := by
  rcases r with e | ⟨rs, lastR⟩
  · exact Or.inl rfl
  · simp only [sendFinish]
    split
    · exact Or.inr rfl
    · exact Or.inl rfl

theorem sendFinish_keepalive_iff (k : Bool) (r : Except Err (List CmdRes × Option CmdRes))
    (s2 : St) :
    (sendFinish k r s2).2.keepalive = some KEEPALIVE_TTL ↔
      k = true ∧ ∃ rs lastR, r = .ok (rs, some lastR) ∧ lastR.ack = true := by
  rcases r with e | ⟨rs, lastR⟩
  · simp only [sendFinish, disconnectTask_zero]
    constructor
    · intro h
      simp at h
    · rintro ⟨_, rs', cr, heq, _⟩
      simp at heq
  · simp only [sendFinish]
    split <;> rename_i hcond
    · simp only [Bool.and_eq_true] at hcond
      rcases lastR with _ | cr
      · simp at hcond
      · constructor
        · intro _
          exact ⟨hcond.1, rs, cr, rfl, hcond.2⟩
        · intro _
          rfl
    · simp only [disconnectTask_zero]
      constructor
      · intro h
        simp at h
      · rintro ⟨hk, rs', cr, heq, hack⟩
        rcases lastR with _ | cr'
        · simp at heq
        · simp only [Except.ok.injEq, Prod.mk.injEq, Option.some.injEq] at heq
          rw [hk, heq.2] at hcond
          simp [hack] at hcond

theorem sendFinish_none_closed (k : Bool) (r : Except Err (List CmdRes × Option CmdRes))
    (s2 : St) :
    (sendFinish k r s2).2.keepalive = none → (sendFinish k r s2).2.connected = false := by
  intro h
  rcases sendFinish_closed_or_scheduled k r s2 with hc | hk
  · exact hc
  · rw [h] at hk
    simp at hk

theorem runBatch_cons (fs : List FmtEntry) (isR : Bool) (c0 : Cmd) (cs : List Cmd) (s : St) :
    runBatch fs isR (c0 :: cs) s =
      (match sendOne c0 s with
       | (.error e, s1) => (.error e, s1)
       | (.ok r0, s1) =>
         let s2 := sleepSt 200 s1
         if refreshStop fs isR c0 r0 = true then
           (.ok (r0 :: cs.map (fun _ => noRes), some r0), s2)
         else
           match runRest fs isR c0 r0 r0 cs s2 with
           | (.error e, s3) => (.error e, s3)
           | (.ok (rs, lastR), s3) => (.ok (r0 :: rs, some lastR), s3)) := rfl

theorem sendFinish_connectTimes (k : Bool) (r : Except Err (List CmdRes × Option CmdRes))
    (s2 : St) : (sendFinish k r s2).2.connectTimes = s2.connectTimes := by
  rcases r with e | ⟨rs, lastR⟩
  · rfl
  · simp only [sendFinish]
    split <;> rfl

/-- `m` issues no `conn.connect()` call: the attempt trace is unchanged. -/
def preservesCT {α : Type} (m : M α) : Prop :=
  ∀ s : St, (m s).2.connectTimes = s.connectTimes

theorem preservesCT_bind {α β : Type} {x : M α} {f : α → M β}
    (hx : preservesCT x) (hf : ∀ a, preservesCT (f a)) : preservesCT (x >>= f) := by
  intro s
  rw [M_bind_apply]
  rcases h : x s with ⟨r, s'⟩
  have hs' := hx s
  rw [h] at hs'
  rcases r with e | a
  · exact hs'
  · exact (hf a s').trans hs'

theorem preservesCT_pure {α : Type} (a : α) : preservesCT (pure a : M α) := fun _ => rfl

theorem preservesCT_getSt : preservesCT getSt := fun _ => rfl

theorem preservesCT_throw {α : Type} (e : Err) : preservesCT (Mthrow e : M α) := fun _ => rfl

theorem preservesCT_write (b : Bytes) : preservesCT (writePrim b) := fun _ => rfl

theorem preservesCT_sleep (d : ℤ) : preservesCT (sleepPrim d) := fun _ => rfl

theorem preservesCT_read (n : Nat) : preservesCT (readPrim n) := by
  intro s
  unfold readPrim
  rcases hr : s.env.reads with _ | ⟨r, rest⟩
  · rfl
  · cases r <;> simp only [hr]

theorem preservesCT_readline : preservesCT readlinePrim := by
  intro s
  unfold readlinePrim
  rcases hr : s.env.readlines with _ | ⟨r, rest⟩
  · rfl
  · cases r <;> simp only [hr]

theorem preservesCT_catch {α : Type} {b h : M α}
    (hb : preservesCT b) (hh : preservesCT h) : preservesCT (catchTimeout b h) := by
  intro s
  unfold catchTimeout
  rcases hres : b s with ⟨r, s'⟩
  have hbs := hb s
  rw [hres] at hbs
  rcases r with e | a
  · cases e <;> first | exact hbs | exact (hh s').trans hbs
  · exact hbs

theorem preservesCT_sendOne (c : Cmd) : preservesCT (sendOne c) := by
  unfold sendOne
  apply preservesCT_bind preservesCT_getSt
  intro s
  split
  · exact preservesCT_throw _
  split
  · exact preservesCT_throw _
  apply preservesCT_bind (preservesCT_write _)
  intro _
  refine preservesCT_catch ?_ (preservesCT_pure _)
  apply preservesCT_bind preservesCT_readline
  intro data
  split
  · exact preservesCT_throw _
  split
  · refine preservesCT_catch ?_ (preservesCT_pure _)
    apply preservesCT_bind preservesCT_readline
    intro rdata
    split
    · exact preservesCT_throw _
    · exact preservesCT_pure _
  · exact preservesCT_pure _

theorem preservesCT_runRest (fs : List FmtEntry) (isR : Bool) (c0 : Cmd) (r0 : CmdRes)
    (cs : List Cmd) : ∀ prev : CmdRes, preservesCT (runRest fs isR c0 r0 prev cs) := by
  induction cs with
  | nil => intro prev s; rfl
  | cons c cs ih =>
    intro prev s
    unfold runRest
    rcases h1 : sendOne c s with ⟨r, s1⟩
    have hs1 : s1.connectTimes = s.connectTimes := by
      have := preservesCT_sendOne c s
      rw [h1] at this
      exact this
    rcases r with e | r
    · simpa [h1] using hs1
    · simp only [h1]
      split
      · exact hs1
      · rcases h3 : runRest fs isR c0 r0 r cs (sleepSt 200 s1) with ⟨r3, s3⟩
        have hs3 := ih r (sleepSt 200 s1)
        rw [h3] at hs3
        rcases r3 with e3 | ⟨rs, lastR⟩ <;> simp only [h3] <;> exact hs3.trans hs1

theorem preservesCT_runBatch (fs : List FmtEntry) (isR : Bool) (cmds : List Cmd) :
    preservesCT (runBatch fs isR cmds) := by
  cases cmds with
  | nil => intro s; rfl
  | cons c0 cs =>
    intro s
    unfold runBatch
    rcases h1 : sendOne c0 s with ⟨r, s1⟩
    have hs1 : s1.connectTimes = s.connectTimes := by
      have := preservesCT_sendOne c0 s
      rw [h1] at this
      exact this
    rcases r with e | r0
    · simpa [h1] using hs1
    · simp only [h1]
      split
      · exact hs1
      · rcases h3 : runRest fs isR c0 r0 r0 cs (sleepSt 200 s1) with ⟨r3, s3⟩
        have hs3 := preservesCT_runRest fs isR c0 r0 cs r0 (sleepSt 200 s1)
        rw [h3] at hs3
        rcases r3 with e3 | ⟨rs, lastR⟩ <;> simp only [h3] <;> exact hs3.trans hs1

theorem sendBody_connected_connectTimes (auth : Bytes) (fs : List FmtEntry) (isR : Bool)
    (cmds : List Cmd) (s : St) (h : s.connected = true) :
    (sendBody auth fs isR cmds s).2.connectTimes = s.connectTimes := by
  unfold sendBody
  simp only [h, Bool.not_true, Bool.false_eq_true, if_false]
  exact preservesCT_runBatch fs isR cmds s

/-- C4: a pending keepalive task is cancelled and its connection folded into
the batch (no new connect attempt); on completion a delayed disconnect is
scheduled iff keepalive eligibility survived (a pending task at entry, or not
a refresh batch, and no failure) and the last attempted command was
acknowledged; otherwise `send` returns already disconnected. -/
theorem C4_keepalive_policy (auth : Bytes) (fs : List FmtEntry) (cmds : List Cmd) (s0 : St)
    (hconn : s0.keepalive.isSome = true → s0.connected = true) :
    (s0.keepalive.isSome = true →
      (send auth fs cmds s0).2.connectTimes = s0.connectTimes)
    ∧ ((send auth fs cmds s0).2.keepalive = some KEEPALIVE_TTL ↔
        ((s0.keepalive.isSome = true ∨ isRefreshBatch cmds = false)
          ∧ ∃ rs lastR, (send auth fs cmds s0).1 = .ok (rs, some lastR) ∧ lastR.ack = true))
    ∧ ((send auth fs cmds s0).2.keepalive = none →
        (send auth fs cmds s0).2.connected = false) := by
  refine ⟨?_, ?_, ?_⟩
  · intro hk
    simp only [send, hk, if_true]
    rw [sendFinish_connectTimes]
    exact sendBody_connected_connectTimes auth fs _ cmds _ (hconn hk)
  · simp only [send, sendFinish_fst]
    rw [sendFinish_keepalive_iff]
    constructor
    · rintro ⟨hkf, hrest⟩
      refine ⟨?_, hrest⟩
      cases h : s0.keepalive.isSome with
      | true => exact Or.inl rfl
      | false =>
        rw [h] at hkf
        simp only [Bool.false_eq_true, if_false, Bool.not_eq_true'] at hkf
        exact Or.inr hkf
    · rintro ⟨helig, hrest⟩
      refine ⟨?_, hrest⟩
      cases h : s0.keepalive.isSome with
      | true => simp [h]
      | false =>
        rcases helig with h1 | h1
        · rw [h] at h1
          simp at h1
        · simp [h, h1]
  · simp only [send]
    exact sendFinish_none_closed _ _ _

theorem C4_keepalive_policy_witness :
    (((mkSt ⟨[], [], []⟩).keepalive.isSome = true →
        (send [] [] [] (mkSt ⟨[], [], []⟩)).2.connectTimes = (mkSt ⟨[], [], []⟩).connectTimes)
    ∧ ((send [] [] [] (mkSt ⟨[], [], []⟩)).2.keepalive = some KEEPALIVE_TTL ↔
        (((mkSt ⟨[], [], []⟩).keepalive.isSome = true ∨ isRefreshBatch [] = false)
          ∧ ∃ rs lastR, (send [] [] [] (mkSt ⟨[], [], []⟩)).1 = .ok (rs, some lastR)
              ∧ lastR.ack = true))
    ∧ ((send [] [] [] (mkSt ⟨[], [], []⟩)).2.keepalive = none →
        (send [] [] [] (mkSt ⟨[], [], []⟩)).2.connected = false)) :=
  C4_keepalive_policy [] [] [] (mkSt ⟨[], [], []⟩) (by decide)

/-! ### Concrete-scenario evaluation lemmas -/

theorem isPrefixOf_append_self (l t : Bytes) : l.isPrefixOf (l ++ t) = true := by
  rw [List.isPrefixOf_iff_prefix]
  exact List.prefix_append l t

theorem isPrefixOf_append₂ (l p q : Bytes) : l.isPrefixOf (l ++ p ++ q) = true := by
  rw [List.append_assoc]
  exact isPrefixOf_append_self l (p ++ q)

/-- Connecting with no password against the scripted greeting ok / auth ack
device: one attempt, one greeting read, no sleeps. -/
theorem connect_eval (rls : List (Option Bytes)) :
    connectDev [] (mkSt ⟨[true], [some PJOK, some PJACK], rls⟩) =
      (.ok (), { connected := true, keepalive := none, last := 10000, now := 10000,
                 env := ⟨[], [], rls⟩, writes := [PJREQ],
                 connectTimes := [10000], greetReads := 1, sleeps := [] }) := rfl

/-- `_send` of an operation command answered by a malformed ack line: the
protocol error carries the raw line and the opcode. -/
theorem sendOne_op_badack (c : Cmd) (data : Bytes) (rest : List (Option Bytes)) (s : St)
    (hc : s.connected = true) (hlen : 2 ≤ c.code.length) (href : c.is_ref = false)
    (hr : s.env.readlines = some data :: rest)
    (hbad : (HEAD_ACK ++ (strBytes c.code).take 2).isPrefixOf data = false) :
    sendOne c s = (.error (.ackInvalid data c.code),
      { s with writes := s.writes ++ [HEAD_OP ++ strBytes c.code ++ END],
               env := { s.env with readlines := rest } }) := by
  unfold sendOne
  rw [M_bind_apply]
  simp only [getSt, hc, Bool.not_true, Bool.false_eq_true, if_false,
    if_neg (Nat.not_lt.mpr hlen), href]
  rw [M_bind_apply]
  simp only [writePrim, writeSt]
  unfold catchTimeout
  rw [M_bind_apply]
  simp only [readlinePrim, hr, hbad, Bool.not_false, if_true, Mthrow]
  rw [hc]

/-- C8: a malformed acknowledgement raises the protocol error naming the raw
bytes and the opcode, and — like every failing `send` — leaves the connection
closed with no keepalive task scheduled. -/
theorem C8_malformed_ack_protocol_error (code : String) (data : Bytes)
    (hlen : 2 ≤ code.length)
    (hbad : (HEAD_ACK ++ (strBytes code).take 2).isPrefixOf data = false) :
    ((send [] [] [⟨code, false⟩]
        (mkSt ⟨[true], [some PJOK, some PJACK], [some data]⟩)).1
        = .error (.ackInvalid data code)
      ∧ (send [] [] [⟨code, false⟩]
          (mkSt ⟨[true], [some PJOK, some PJACK], [some data]⟩)).2.connected = false
      ∧ (send [] [] [⟨code, false⟩]
          (mkSt ⟨[true], [some PJOK, some PJACK], [some data]⟩)).2.keepalive = none)
    ∧ (∀ (auth : Bytes) (fs : List FmtEntry) (cmds : List Cmd) (s0 : St) (e : Err),
        (send auth fs cmds s0).1 = .error e →
        (send auth fs cmds s0).2.connected = false
          ∧ (send auth fs cmds s0).2.keepalive = none) := by
  constructor
  · have hbody : sendBody [] [] false [⟨code, false⟩]
        (mkSt ⟨[true], [some PJOK, some PJACK], [some data]⟩) =
        (.error (.ackInvalid data code),
          { connected := true, keepalive := none, last := 10000, now := 10000,
            env := ⟨[], [], []⟩, writes := [PJREQ, HEAD_OP ++ strBytes code ++ END],
            connectTimes := [10000], greetReads := 1, sleeps := [] }) := by
      unfold sendBody
      rw [if_pos
        (show (!(mkSt ⟨[true], [some PJOK, some PJACK], [some data]⟩).connected) = true
          from rfl)]
      rw [connect_eval [some data]]
      show runBatch [] false [⟨code, false⟩]
          { connected := true, keepalive := none, last := 10000, now := 10000,
            env := ⟨[], [], [some data]⟩, writes := [PJREQ],
            connectTimes := [10000], greetReads := 1, sleeps := [] } = _
      rw [runBatch_cons]
      rw [sendOne_op_badack ⟨code, false⟩ data []
        { connected := true, keepalive := none, last := 10000, now := 10000,
          env := ⟨[], [], [some data]⟩, writes := [PJREQ],
          connectTimes := [10000], greetReads := 1, sleeps := [] }
        rfl hlen rfl rfl hbad]
      rfl
    have hsend : send [] [] [⟨code, false⟩]
        (mkSt ⟨[true], [some PJOK, some PJACK], [some data]⟩) =
        sendFinish true (.error (.ackInvalid data code))
          { connected := true, keepalive := none, last := 10000, now := 10000,
            env := ⟨[], [], []⟩, writes := [PJREQ, HEAD_OP ++ strBytes code ++ END],
            connectTimes := [10000], greetReads := 1, sleeps := [] } := by
      simp only [send]
      rw [show (if (mkSt ⟨[true], [some PJOK, some PJACK], [some data]⟩).keepalive.isSome = true
            then ({ mkSt ⟨[true], [some PJOK, some PJACK], [some data]⟩ with keepalive := none })
            else mkSt ⟨[true], [some PJOK, some PJACK], [some data]⟩)
          = mkSt ⟨[true], [some PJOK, some PJACK], [some data]⟩ from rfl]
      rw [show (if (mkSt ⟨[true], [some PJOK, some PJACK], [some data]⟩).keepalive.isSome = true
            then true else !isRefreshBatch [⟨code, false⟩]) = true from rfl]
      rw [show isRefreshBatch [⟨code, false⟩] = false from rfl]
      rw [hbody]
    rw [hsend]
    exact ⟨rfl, rfl, rfl⟩
  · intro auth fs cmds s0 e herr
    simp only [send] at herr ⊢
    rw [sendFinish_fst] at herr
    rw [herr]
    exact ⟨rfl, rfl⟩

theorem C8_malformed_ack_protocol_error_witness :
    (((send [] [] [⟨"PW1", false⟩]
        (mkSt ⟨[true], [some PJOK, some PJACK], [some (strBytes "BAD")]⟩)).1
        = .error (.ackInvalid (strBytes "BAD") "PW1")
      ∧ (send [] [] [⟨"PW1", false⟩]
          (mkSt ⟨[true], [some PJOK, some PJACK], [some (strBytes "BAD")]⟩)).2.connected = false
      ∧ (send [] [] [⟨"PW1", false⟩]
          (mkSt ⟨[true], [some PJOK, some PJACK], [some (strBytes "BAD")]⟩)).2.keepalive = none)
    ∧ (∀ (auth : Bytes) (fs : List FmtEntry) (cmds : List Cmd) (s0 : St) (e : Err),
        (send auth fs cmds s0).1 = .error e →
        (send auth fs cmds s0).2.connected = false
          ∧ (send auth fs cmds s0).2.keepalive = none)) :=
  C8_malformed_ack_protocol_error "PW1" (strBytes "BAD") (by decide) (by decide)

/-! ### Composition lemmas for evaluating batches with symbolic opcodes -/

theorem runBatch_cons_stop (fs : List FmtEntry) (isR : Bool) (c0 : Cmd) (cs : List Cmd)
    (s s1 s2 : St) (r1 : CmdRes) (h : sendOne c0 s = (.ok r1, s1))
    (hstop : refreshStop fs isR c0 r1 = true) (hs2 : sleepSt 200 s1 = s2) :
    runBatch fs isR (c0 :: cs) s = (.ok (r1 :: cs.map (fun _ => noRes), some r1), s2) := by
  rw [runBatch_cons, h]
  simp only [hs2, hstop, if_true]

theorem sendBody_connect_ok (auth : Bytes) (fs : List FmtEntry) (isR : Bool)
    (cmds : List Cmd) (s s1 : St) (h0 : s.connected = false)
    (h : connectDev auth s = (.ok (), s1)) :
    sendBody auth fs isR cmds s = runBatch fs isR cmds s1 := by
  unfold sendBody
  rw [h0]
  simp only [Bool.not_false, if_true]
  rw [h]

/-- `send` on a state with no pending keepalive task reduces to
body-then-finish with eligibility `!is_refresh`. -/
theorem send_eval_fresh (auth : Bytes) (fs : List FmtEntry) (cmds : List Cmd) (s0 : St)
    (h : s0.keepalive = none) :
    send auth fs cmds s0 =
      sendFinish (!isRefreshBatch cmds)
        (sendBody auth fs (isRefreshBatch cmds) cmds s0).1
        (sendBody auth fs (isRefreshBatch cmds) cmds s0).2 := by
  simp only [send, h, Option.isSome_none, Bool.false_eq_true, if_false]

/-- `_send` of a query command: well-formed ack line, then a response line
whose payload is decoded and stored. -/
theorem sendOne_ref_ok (c : Cmd) (payload : Bytes) (rest : List (Option Bytes)) (s : St)
    (hc : s.connected = true) (hlen : 2 ≤ c.code.length) (href : c.is_ref = true)
    (hr : s.env.readlines =
      some (HEAD_ACK ++ (strBytes c.code).take 2 ++ END)
        :: some (HEAD_RES ++ (strBytes c.code).take 2 ++ payload ++ END) :: rest) :
    sendOne c s = (.ok ⟨true,
        some (decodeResp (HEAD_RES ++ (strBytes c.code).take 2 ++ payload ++ END) payload)⟩,
      { s with writes := s.writes ++ [HEAD_REF ++ strBytes c.code ++ END],
               env := { s.env with readlines := rest } }) := by
  have hlen2 : ((strBytes c.code).take 2).length = 2 := by
    rw [List.length_take]
    apply Nat.min_eq_left
    rw [strBytes, List.length_map]
    exact hlen
  have hdrop : ((HEAD_RES ++ (strBytes c.code).take 2 ++ payload ++ END).drop
      (HEAD_LEN + 2)).dropLast = payload := by
    rw [List.append_assoc (HEAD_RES ++ (strBytes c.code).take 2) payload END]
    rw [show HEAD_LEN + 2 = (HEAD_RES ++ (strBytes c.code).take 2).length by
      simp [HEAD_RES, UNIT_ID, HEAD_LEN, hlen2]]
    rw [List.drop_left]
    simp only [END]
    exact List.dropLast_concat
  unfold sendOne
  rw [M_bind_apply]
  simp only [getSt, hc, Bool.not_true, Bool.false_eq_true, if_false,
    if_neg (Nat.not_lt.mpr hlen), href]
  rw [M_bind_apply]
  simp only [writePrim, writeSt]
  unfold catchTimeout
  rw [M_bind_apply]
  simp only [readlinePrim, hr, isPrefixOf_append_self, isPrefixOf_append₂, Bool.not_true,
    Bool.false_eq_true, if_false, if_true, M_pure_apply, M_bind_apply, hdrop]
  rw [hc]

/-- C10: every exit path of `send` either leaves the connection disconnected
or stores a pending keepalive task carrying the fixed 2-second delay, and the
body of that task (`_disconnect(KEEPALIVE_TTL)`) sleeps exactly 2 seconds,
clears the stored task and disconnects. -/
theorem C10_send_never_leaks_connection (auth : Bytes) (fs : List FmtEntry)
    (cmds : List Cmd) (s0 : St) :
    ((send auth fs cmds s0).2.connected = false ∨
      (send auth fs cmds s0).2.keepalive = some KEEPALIVE_TTL)
    ∧ (∀ s : St,
        (disconnectTask KEEPALIVE_TTL s).2.connected = false
        ∧ (disconnectTask KEEPALIVE_TTL s).2.keepalive = none
        ∧ (disconnectTask KEEPALIVE_TTL s).2.sleeps
            = s.sleeps ++ [1000 * (KEEPALIVE_TTL : ℤ)]) := by
  constructor
  · simp only [send]
    exact sendFinish_closed_or_scheduled _ _ _
  · intro s
    exact ⟨rfl, rfl, rfl⟩


/-- C3: a refresh batch (power query first) whose first decoded response is
anything but "on" executes exactly one command — one frame after the auth
request — and leaves the second command un-acknowledged. -/
theorem C3_refresh_batch_short_circuit (fs : List FmtEntry) (c0 c1 : String) (payload : Bytes)
    (h0 : strStartsWith c0 "PW" = true) (h0len : 2 ≤ c0.length)
    (hresp : respond fs ⟨c0, true⟩
        (some (decodeResp (HEAD_RES ++ (strBytes c0).take 2 ++ payload ++ END) payload))
        ≠ some constON) :
    (send [] fs [⟨c0, true⟩, ⟨c1, true⟩]
      (mkSt ⟨[true], [some PJOK, some PJACK],
             [some (HEAD_ACK ++ (strBytes c0).take 2 ++ END),
              some (HEAD_RES ++ (strBytes c0).take 2 ++ payload ++ END)]⟩)).1
      = .ok ([⟨true, some (decodeResp (HEAD_RES ++ (strBytes c0).take 2 ++ payload ++ END)
                payload)⟩, noRes],
             some ⟨true, some (decodeResp (HEAD_RES ++ (strBytes c0).take 2 ++ payload ++ END)
                payload)⟩)
    ∧ (send [] fs [⟨c0, true⟩, ⟨c1, true⟩]
        (mkSt ⟨[true], [some PJOK, some PJACK],
               [some (HEAD_ACK ++ (strBytes c0).take 2 ++ END),
                some (HEAD_RES ++ (strBytes c0).take 2 ++ payload ++ END)]⟩)).2.writes
      = [PJREQ, HEAD_REF ++ strBytes c0 ++ END] := by
  have hrefresh : isRefreshBatch [⟨c0, true⟩, ⟨c1, true⟩] = true := by
    simp [isRefreshBatch, Cmd.is_power, h0]
  have hstop : refreshStop fs true ⟨c0, true⟩
      ⟨true, some (decodeResp (HEAD_RES ++ (strBytes c0).take 2 ++ payload ++ END) payload)⟩
      = true := by
    simp only [refreshStop, Bool.true_and, Bool.not_eq_true', beq_eq_false_iff_ne, ne_eq]
    exact hresp
  have hbatch : runBatch fs true [⟨c0, true⟩, ⟨c1, true⟩]
      { connected := true, keepalive := none, last := 10000, now := 10000,
        env := ⟨[], [], [some (HEAD_ACK ++ (strBytes c0).take 2 ++ END),
                         some (HEAD_RES ++ (strBytes c0).take 2 ++ payload ++ END)]⟩,
        writes := [PJREQ], connectTimes := [10000], greetReads := 1, sleeps := [] } =
      (.ok ([⟨true, some (decodeResp (HEAD_RES ++ (strBytes c0).take 2 ++ payload ++ END)
                payload)⟩, noRes],
            some ⟨true, some (decodeResp (HEAD_RES ++ (strBytes c0).take 2 ++ payload ++ END)
                payload)⟩),
        { connected := true, keepalive := none, last := 10000, now := 10200,
          env := ⟨[], [], []⟩, writes := [PJREQ, HEAD_REF ++ strBytes c0 ++ END],
          connectTimes := [10000], greetReads := 1, sleeps := [200] }) := by
    rw [runBatch_cons_stop fs true ⟨c0, true⟩ [⟨c1, true⟩] _
      { connected := true, keepalive := none, last := 10000, now := 10000,
        env := ⟨[], [], []⟩, writes := [PJREQ, HEAD_REF ++ strBytes c0 ++ END],
        connectTimes := [10000], greetReads := 1, sleeps := [] }
      { connected := true, keepalive := none, last := 10000, now := 10200,
        env := ⟨[], [], []⟩, writes := [PJREQ, HEAD_REF ++ strBytes c0 ++ END],
        connectTimes := [10000], greetReads := 1, sleeps := [200] }
      ⟨true, some (decodeResp (HEAD_RES ++ (strBytes c0).take 2 ++ payload ++ END) payload)⟩
      (sendOne_ref_ok ⟨c0, true⟩ payload [] _ rfl h0len rfl rfl) hstop rfl]
    rfl
  have hsend : send [] fs [⟨c0, true⟩, ⟨c1, true⟩]
      (mkSt ⟨[true], [some PJOK, some PJACK],
             [some (HEAD_ACK ++ (strBytes c0).take 2 ++ END),
              some (HEAD_RES ++ (strBytes c0).take 2 ++ payload ++ END)]⟩) =
      (.ok ([⟨true, some (decodeResp (HEAD_RES ++ (strBytes c0).take 2 ++ payload ++ END)
                payload)⟩, noRes],
            some ⟨true, some (decodeResp (HEAD_RES ++ (strBytes c0).take 2 ++ payload ++ END)
                payload)⟩),
        { connected := false, keepalive := none, last := 10000, now := 10200,
          env := ⟨[], [], []⟩, writes := [PJREQ, HEAD_REF ++ strBytes c0 ++ END],
          connectTimes := [10000], greetReads := 1, sleeps := [200] }) := by
    rw [send_eval_fresh _ _ _ _ rfl]
    rw [hrefresh]
    rw [sendBody_connect_ok [] fs true [⟨c0, true⟩, ⟨c1, true⟩] _ _ rfl
      (connect_eval [some (HEAD_ACK ++ (strBytes c0).take 2 ++ END),
                     some (HEAD_RES ++ (strBytes c0).take 2 ++ payload ++ END)])]
    rw [hbatch]
    rfl
  rw [hsend]
  exact ⟨rfl, rfl⟩

theorem C3_refresh_batch_short_circuit_witness :
    (send [] [] [⟨"PW", true⟩, ⟨"IP", true⟩]
      (mkSt ⟨[true], [some PJOK, some PJACK],
             [some (HEAD_ACK ++ (strBytes "PW").take 2 ++ END),
              some (HEAD_RES ++ (strBytes "PW").take 2 ++ strBytes "0" ++ END)]⟩)).1
      = .ok ([⟨true, some (decodeResp (HEAD_RES ++ (strBytes "PW").take 2 ++ strBytes "0" ++ END)
                (strBytes "0"))⟩, noRes],
             some ⟨true, some (decodeResp (HEAD_RES ++ (strBytes "PW").take 2 ++ strBytes "0" ++ END)
                (strBytes "0"))⟩)
    ∧ (send [] [] [⟨"PW", true⟩, ⟨"IP", true⟩]
        (mkSt ⟨[true], [some PJOK, some PJACK],
               [some (HEAD_ACK ++ (strBytes "PW").take 2 ++ END),
                some (HEAD_RES ++ (strBytes "PW").take 2 ++ strBytes "0" ++ END)]⟩)).2.writes
      = [PJREQ, HEAD_REF ++ strBytes "PW" ++ END] :=
  C3_refresh_batch_short_circuit [] "PW" "IP" (strBytes "0")
    (by decide) (by decide) (by decide)


theorem connectAttempts_step_busy (auth : Bytes) (fuel retry : Nat) (s s1 : St)
    (h : connectAttemptBody auth retry s = (.ok false, s1)) :
    connectAttempts auth (fuel + 1) retry s = connectAttempts auth fuel (retry + 1) s1 := by
  conv_lhs => unfold connectAttempts
  rw [h]

theorem connectAttempts_step_ok (auth : Bytes) (fuel retry : Nat) (s s1 : St)
    (h : connectAttemptBody auth retry s = (.ok true, s1)) :
    connectAttempts auth (fuel + 1) retry s = (.ok (), s1) := by
  conv_lhs => unfold connectAttempts
  rw [h]

theorem connectAttempts_zero (auth : Bytes) (retry : Nat) (s : St) :
    connectAttempts auth 0 retry s = (.error .retriesExceeded, s) := rfl

theorem connectDev_start (auth : Bytes) (s s1 : St) (h0 : s.connected = false)
    (h1 : (rateLimit s).2 = s1) :
    connectDev auth s = connectAttempts auth 10 0 s1 := by
  unfold connectDev
  rw [M_bind_apply]
  simp only [getSt, h0, Bool.false_eq_true, if_false]
  rw [M_bind_apply]
  rw [show rateLimit s = (.ok (), s1) from by rw [← h1]; rfl]

/-- C6: with the device scripted busy, busy, ok and an auth ack, `_connect`
succeeds on the third attempt (two retries), issuing exactly three greeting
reads, with backoffs of 0.25 s and 0.5 s (250/500 ms); ten busy greetings
exhaust `MAX_RETRIES` and raise the "Retries exceeded" connect error. -/
theorem C6_busy_retry_handshake (auth : Bytes) :
    ((connectDev auth (mkSt ⟨[true, true, true],
        [some PJNG, some PJNG, some PJOK, some PJACK], []⟩)).1 = .ok ()
      ∧ (connectDev auth (mkSt ⟨[true, true, true],
          [some PJNG, some PJNG, some PJOK, some PJACK], []⟩)).2.connectTimes.length = 3
      ∧ (connectDev auth (mkSt ⟨[true, true, true],
          [some PJNG, some PJNG, some PJOK, some PJACK], []⟩)).2.greetReads = 3
      ∧ (connectDev auth (mkSt ⟨[true, true, true],
          [some PJNG, some PJNG, some PJOK, some PJACK], []⟩)).2.sleeps = [250, 500])
    ∧ (connectDev auth (mkSt ⟨List.replicate 10 true,
        List.replicate 10 (some PJNG), []⟩)).1 = .error .retriesExceeded := by
  have hsucc : connectDev auth (mkSt ⟨[true, true, true],
      [some PJNG, some PJNG, some PJOK, some PJACK], []⟩) =
      (.ok (),
        { connected := true, keepalive := none, last := 10000, now := 10750,
          env := ⟨[], [], []⟩, writes := [PJREQ ++ auth],
          connectTimes := [10000, 10250, 10750], greetReads := 3, sleeps := [250, 500] }) := by
    rw [connectDev_start auth
      (mkSt ⟨[true, true, true], [some PJNG, some PJNG, some PJOK, some PJACK], []⟩)
      { connected := false, keepalive := none, last := 10000, now := 10000,
        env := ⟨[true, true, true], [some PJNG, some PJNG, some PJOK, some PJACK], []⟩, writes := [],
        connectTimes := [], greetReads := 0, sleeps := [] }
      rfl rfl]
    rw [connectAttempts_step_busy auth 9 0
      { connected := false, keepalive := none, last := 10000, now := 10000,
        env := ⟨[true, true, true], [some PJNG, some PJNG, some PJOK, some PJACK], []⟩, writes := [],
        connectTimes := [], greetReads := 0, sleeps := [] }
      { connected := true, keepalive := none, last := 10000, now := 10250,
        env := ⟨[true, true], [some PJNG, some PJOK, some PJACK], []⟩, writes := [],
        connectTimes := [10000], greetReads := 1, sleeps := [250] }
      rfl]
    rw [connectAttempts_step_busy auth 8 1
      { connected := true, keepalive := none, last := 10000, now := 10250,
        env := ⟨[true, true], [some PJNG, some PJOK, some PJACK], []⟩, writes := [],
        connectTimes := [10000], greetReads := 1, sleeps := [250] }
      { connected := true, keepalive := none, last := 10000, now := 10750,
        env := ⟨[true], [some PJOK, some PJACK], []⟩, writes := [],
        connectTimes := [10000, 10250], greetReads := 2, sleeps := [250, 500] }
      rfl]
    rw [connectAttempts_step_ok auth 7 2
      { connected := true, keepalive := none, last := 10000, now := 10750,
        env := ⟨[true], [some PJOK, some PJACK], []⟩, writes := [],
        connectTimes := [10000, 10250], greetReads := 2, sleeps := [250, 500] }
      { connected := true, keepalive := none, last := 10000, now := 10750,
        env := ⟨[], [], []⟩, writes := [PJREQ ++ auth],
        connectTimes := [10000, 10250, 10750], greetReads := 3, sleeps := [250, 500] }
      rfl]
  have hfail : connectDev auth (mkSt ⟨List.replicate 10 true,
      List.replicate 10 (some PJNG), []⟩) =
      (.error .retriesExceeded,
        { connected := true, keepalive := none, last := 10000, now := 23750,
          env := ⟨[], [], []⟩, writes := [],
          connectTimes := [10000, 10250, 10750, 11500, 12500, 13750, 15250, 17000, 19000, 21250], greetReads := 10, sleeps := [250, 500, 750, 1000, 1250, 1500, 1750, 2000, 2250, 2500] }) := by
    rw [connectDev_start auth
      (mkSt ⟨List.replicate 10 true, List.replicate 10 (some PJNG), []⟩)
      { connected := false, keepalive := none, last := 10000, now := 10000,
        env := ⟨List.replicate 10 true, List.replicate 10 (some PJNG), []⟩, writes := [],
        connectTimes := [], greetReads := 0, sleeps := [] }
      rfl rfl]
    rw [connectAttempts_step_busy auth 9 0
      { connected := false, keepalive := none, last := 10000, now := 10000,
        env := ⟨List.replicate 10 true, List.replicate 10 (some PJNG), []⟩, writes := [],
        connectTimes := [], greetReads := 0, sleeps := [] }
      { connected := true, keepalive := none, last := 10000, now := 10250,
        env := ⟨List.replicate 9 true, List.replicate 9 (some PJNG), []⟩, writes := [],
        connectTimes := [10000], greetReads := 1, sleeps := [250] }
      rfl]
    rw [connectAttempts_step_busy auth 8 1
      { connected := true, keepalive := none, last := 10000, now := 10250,
        env := ⟨List.replicate 9 true, List.replicate 9 (some PJNG), []⟩, writes := [],
        connectTimes := [10000], greetReads := 1, sleeps := [250] }
      { connected := true, keepalive := none, last := 10000, now := 10750,
        env := ⟨List.replicate 8 true, List.replicate 8 (some PJNG), []⟩, writes := [],
        connectTimes := [10000, 10250], greetReads := 2, sleeps := [250, 500] }
      rfl]
    rw [connectAttempts_step_busy auth 7 2
      { connected := true, keepalive := none, last := 10000, now := 10750,
        env := ⟨List.replicate 8 true, List.replicate 8 (some PJNG), []⟩, writes := [],
        connectTimes := [10000, 10250], greetReads := 2, sleeps := [250, 500] }
      { connected := true, keepalive := none, last := 10000, now := 11500,
        env := ⟨List.replicate 7 true, List.replicate 7 (some PJNG), []⟩, writes := [],
        connectTimes := [10000, 10250, 10750], greetReads := 3, sleeps := [250, 500, 750] }
      rfl]
    rw [connectAttempts_step_busy auth 6 3
      { connected := true, keepalive := none, last := 10000, now := 11500,
        env := ⟨List.replicate 7 true, List.replicate 7 (some PJNG), []⟩, writes := [],
        connectTimes := [10000, 10250, 10750], greetReads := 3, sleeps := [250, 500, 750] }
      { connected := true, keepalive := none, last := 10000, now := 12500,
        env := ⟨List.replicate 6 true, List.replicate 6 (some PJNG), []⟩, writes := [],
        connectTimes := [10000, 10250, 10750, 11500], greetReads := 4, sleeps := [250, 500, 750, 1000] }
      rfl]
    rw [connectAttempts_step_busy auth 5 4
      { connected := true, keepalive := none, last := 10000, now := 12500,
        env := ⟨List.replicate 6 true, List.replicate 6 (some PJNG), []⟩, writes := [],
        connectTimes := [10000, 10250, 10750, 11500], greetReads := 4, sleeps := [250, 500, 750, 1000] }
      { connected := true, keepalive := none, last := 10000, now := 13750,
        env := ⟨List.replicate 5 true, List.replicate 5 (some PJNG), []⟩, writes := [],
        connectTimes := [10000, 10250, 10750, 11500, 12500], greetReads := 5, sleeps := [250, 500, 750, 1000, 1250] }
      rfl]
    rw [connectAttempts_step_busy auth 4 5
      { connected := true, keepalive := none, last := 10000, now := 13750,
        env := ⟨List.replicate 5 true, List.replicate 5 (some PJNG), []⟩, writes := [],
        connectTimes := [10000, 10250, 10750, 11500, 12500], greetReads := 5, sleeps := [250, 500, 750, 1000, 1250] }
      { connected := true, keepalive := none, last := 10000, now := 15250,
        env := ⟨List.replicate 4 true, List.replicate 4 (some PJNG), []⟩, writes := [],
        connectTimes := [10000, 10250, 10750, 11500, 12500, 13750], greetReads := 6, sleeps := [250, 500, 750, 1000, 1250, 1500] }
      rfl]
    rw [connectAttempts_step_busy auth 3 6
      { connected := true, keepalive := none, last := 10000, now := 15250,
        env := ⟨List.replicate 4 true, List.replicate 4 (some PJNG), []⟩, writes := [],
        connectTimes := [10000, 10250, 10750, 11500, 12500, 13750], greetReads := 6, sleeps := [250, 500, 750, 1000, 1250, 1500] }
      { connected := true, keepalive := none, last := 10000, now := 17000,
        env := ⟨List.replicate 3 true, List.replicate 3 (some PJNG), []⟩, writes := [],
        connectTimes := [10000, 10250, 10750, 11500, 12500, 13750, 15250], greetReads := 7, sleeps := [250, 500, 750, 1000, 1250, 1500, 1750] }
      rfl]
    rw [connectAttempts_step_busy auth 2 7
      { connected := true, keepalive := none, last := 10000, now := 17000,
        env := ⟨List.replicate 3 true, List.replicate 3 (some PJNG), []⟩, writes := [],
        connectTimes := [10000, 10250, 10750, 11500, 12500, 13750, 15250], greetReads := 7, sleeps := [250, 500, 750, 1000, 1250, 1500, 1750] }
      { connected := true, keepalive := none, last := 10000, now := 19000,
        env := ⟨List.replicate 2 true, List.replicate 2 (some PJNG), []⟩, writes := [],
        connectTimes := [10000, 10250, 10750, 11500, 12500, 13750, 15250, 17000], greetReads := 8, sleeps := [250, 500, 750, 1000, 1250, 1500, 1750, 2000] }
      rfl]
    rw [connectAttempts_step_busy auth 1 8
      { connected := true, keepalive := none, last := 10000, now := 19000,
        env := ⟨List.replicate 2 true, List.replicate 2 (some PJNG), []⟩, writes := [],
        connectTimes := [10000, 10250, 10750, 11500, 12500, 13750, 15250, 17000], greetReads := 8, sleeps := [250, 500, 750, 1000, 1250, 1500, 1750, 2000] }
      { connected := true, keepalive := none, last := 10000, now := 21250,
        env := ⟨List.replicate 1 true, List.replicate 1 (some PJNG), []⟩, writes := [],
        connectTimes := [10000, 10250, 10750, 11500, 12500, 13750, 15250, 17000, 19000], greetReads := 9, sleeps := [250, 500, 750, 1000, 1250, 1500, 1750, 2000, 2250] }
      rfl]
    rw [connectAttempts_step_busy auth 0 9
      { connected := true, keepalive := none, last := 10000, now := 21250,
        env := ⟨List.replicate 1 true, List.replicate 1 (some PJNG), []⟩, writes := [],
        connectTimes := [10000, 10250, 10750, 11500, 12500, 13750, 15250, 17000, 19000], greetReads := 9, sleeps := [250, 500, 750, 1000, 1250, 1500, 1750, 2000, 2250] }
      { connected := true, keepalive := none, last := 10000, now := 23750,
        env := ⟨[], [], []⟩, writes := [],
        connectTimes := [10000, 10250, 10750, 11500, 12500, 13750, 15250, 17000, 19000, 21250], greetReads := 10, sleeps := [250, 500, 750, 1000, 1250, 1500, 1750, 2000, 2250, 2500] }
      rfl]
    rw [connectAttempts_zero]
  rw [hsucc, hfail]
  exact ⟨⟨rfl, rfl, rfl, rfl⟩, rfl⟩

/-- C7: in the authentication exchange, a second nak is an auth error; a
reply that is neither ack nor nak is the "Handshake ack invalid" protocol
error (on either attempt); a timeout on either read is the "Handshake ack
timeout" connect error. -/
theorem C7_authenticate_error_paths (auth r : Bytes) (h1 : r ≠ PJACK) (h2 : r ≠ PJNAK) :
    ((authenticate auth (mkSt ⟨[], [some PJNAK, some PJNAK], []⟩)).1 = .error .auth)
    ∧ ((authenticate auth (mkSt ⟨[], [some r], []⟩)).1 = .error .handshakeAckInvalid)
    ∧ ((authenticate auth (mkSt ⟨[], [some PJNAK, some r], []⟩)).1
        = .error .handshakeAckInvalid)
    ∧ ((authenticate auth (mkSt ⟨[], [none], []⟩)).1 = .error .handshakeAckTimeout)
    ∧ ((authenticate auth (mkSt ⟨[], [some PJNAK, none], []⟩)).1
        = .error .handshakeAckTimeout) := by
  refine ⟨rfl, ?_, ?_, rfl, rfl⟩
  · unfold authenticate
    simp only [readPrim, writeSt, mkSt]
    rw [if_neg h2]
    simp only [checkAck]
    rw [if_neg h2, if_pos h1]
    rfl
  · unfold authenticate
    simp only [readPrim, writeSt, mkSt]
    rw [if_pos trivial]
    simp only [checkAck]
    rw [if_neg h2, if_pos h1]
    rfl

theorem C7_authenticate_error_paths_witness :
    ((authenticate [] (mkSt ⟨[], [some PJNAK, some PJNAK], []⟩)).1 = .error .auth)
    ∧ ((authenticate [] (mkSt ⟨[], [some (strBytes "XXXXX")], []⟩)).1
        = .error .handshakeAckInvalid)
    ∧ ((authenticate [] (mkSt ⟨[], [some PJNAK, some (strBytes "XXXXX")], []⟩)).1
        = .error .handshakeAckInvalid)
    ∧ ((authenticate [] (mkSt ⟨[], [none], []⟩)).1 = .error .handshakeAckTimeout)
    ∧ ((authenticate [] (mkSt ⟨[], [some PJNAK, none], []⟩)).1
        = .error .handshakeAckTimeout) :=
  C7_authenticate_error_paths [] (strBytes "XXXXX") (by decide) (by decide)


/-! ### Rate-limit analysis (C5) -/

theorem rateLimit_floor (s : St) :
    (rateLimit s).2.last = (rateLimit s).2.now
    ∧ (rateLimit s).2.now - s.last ≥ 750
    ∧ (rateLimit s).2.connectTimes = s.connectTimes := by
  refine ⟨rfl, ?_, ?_⟩
  · unfold rateLimit
    dsimp only
    split <;> rename_i hcond
    · dsimp [sleepSt]
      omega
    · omega
  · unfold rateLimit
    dsimp only
    split <;> rfl

theorem preservesCT_readGreet : preservesCT readGreet := by
  intro s
  unfold readGreet
  exact preservesCT_read PJOK.length {s with greetReads := s.greetReads + 1}

theorem authWrap_snd (p : Except Err Unit × St) : (authWrap p).2 = p.2 := by
  rcases p with ⟨r, sx⟩
  rcases r with e | u
  · cases e <;> rfl
  · rfl

theorem preservesCT_authenticate (auth : Bytes) : preservesCT (authenticate auth) := by
  intro s
  unfold authenticate
  dsimp only
  rw [authWrap_snd]
  rcases hr1 : readPrim PJACK.length (writeSt (PJREQ ++ auth) s) with ⟨r1, s1⟩
  have hs1 : s1.connectTimes = s.connectTimes := by
    have h := preservesCT_read PJACK.length (writeSt (PJREQ ++ auth) s)
    rw [hr1] at h
    exact h
  rcases r1 with e | r
  · exact hs1
  · dsimp only
    split
    · rcases hr2 : readPrim PJACK.length
          (writeSt (PJREQ ++ passwordToSha256 auth) s1) with ⟨r2, s3⟩
      have hs3 : s3.connectTimes = s1.connectTimes := by
        have h := preservesCT_read PJACK.length (writeSt (PJREQ ++ passwordToSha256 auth) s1)
        rw [hr2] at h
        exact h
      rcases r2 with e2 | r2v
      · exact hs3.trans hs1
      · exact hs3.trans hs1
    · exact hs1

theorem connPrim_ct (s : St) : (connPrim s).2.connectTimes = s.connectTimes ++ [s.now] := by
  unfold connPrim
  dsimp only
  rcases hcs : s.env.connects with _ | ⟨b, rest⟩
  · rfl
  · cases b <;> rfl

theorem connectAttemptBody_ct (auth : Bytes) (retry : Nat) (s : St) :
    (connectAttemptBody auth retry s).2.connectTimes = s.connectTimes ++ [s.now] := by
  unfold connectAttemptBody
  rw [M_bind_apply]
  rcases hc : connPrim s with ⟨rc, sc⟩
  have hsc : sc.connectTimes = s.connectTimes ++ [s.now] := by
    have h := connPrim_ct s
    rw [hc] at h
    exact h
  rcases rc with e | u
  · exact hsc
  · refine Eq.trans ?_ hsc
    apply preservesCT_bind preservesCT_readGreet
    intro data
    split
    · exact preservesCT_bind (preservesCT_sleep _) fun _ => preservesCT_pure _
    split
    · exact preservesCT_throw _
    · exact preservesCT_bind (preservesCT_authenticate auth) fun _ => preservesCT_pure _

theorem connectAttempts_extends (auth : Bytes) : ∀ (fuel retry : Nat) (s : St),
    ∃ t, (connectAttempts auth fuel retry s).2.connectTimes = s.connectTimes ++ t := by
  intro fuel
  induction fuel with
  | zero =>
    intro retry s
    exact ⟨[], (List.append_nil _).symm⟩
  | succ n ih =>
    intro retry s
    unfold connectAttempts
    rcases hb : connectAttemptBody auth retry s with ⟨rb, sb⟩
    have hsb : sb.connectTimes = s.connectTimes ++ [s.now] := by
      have h := connectAttemptBody_ct auth retry s
      rw [hb] at h
      exact h
    rcases rb with e | b
    · cases e
      case connRefused =>
        obtain ⟨t2, ht2⟩ := ih (retry + 1) (sleepSt (200 * (retry + 1)) sb)
        refine ⟨[s.now] ++ t2, ?_⟩
        rw [← List.append_assoc, ← hsb]
        exact ht2
      all_goals exact ⟨[s.now], hsb⟩
    · cases b
      case false =>
        obtain ⟨t2, ht2⟩ := ih (retry + 1) sb
        refine ⟨[s.now] ++ t2, ?_⟩
        rw [← List.append_assoc, ← hsb]
        exact ht2
      case true => exact ⟨[s.now], hsb⟩

theorem connectAttempts_first (auth : Bytes) (n retry : Nat) (s : St) :
    ∃ t, (connectAttempts auth (n + 1) retry s).2.connectTimes
      = s.connectTimes ++ s.now :: t := by
  unfold connectAttempts
  rcases hb : connectAttemptBody auth retry s with ⟨rb, sb⟩
  have hsb : sb.connectTimes = s.connectTimes ++ [s.now] := by
    have h := connectAttemptBody_ct auth retry s
    rw [hb] at h
    exact h
  rcases rb with e | b
  · cases e
    case connRefused =>
      obtain ⟨t2, ht2⟩ := connectAttempts_extends auth n (retry + 1)
        (sleepSt (200 * (retry + 1)) sb)
      refine ⟨t2, ?_⟩
      rw [ht2]
      show sb.connectTimes ++ t2 = _
      rw [hsb, List.append_assoc]
      rfl
    all_goals exact ⟨[], hsb⟩
  · cases b
    case false =>
      obtain ⟨t2, ht2⟩ := connectAttempts_extends auth n (retry + 1) sb
      refine ⟨t2, ?_⟩
      rw [ht2, hsb, List.append_assoc]
      rfl
    case true => exact ⟨[], hsb⟩

/-- C5 (counterexample): with one busy greeting, the two physical connect
attempts of a single `_connect()` invocation are only 0.25 s (250 ms) apart —
below the 0.75 s (750 ms) rate-limit floor, which is enforced only once per
invocation, not between in-loop retries. -/
theorem C5_counterexample_retry_below_floor :
    ((connectDev [] (mkSt ⟨[true, true], [some PJNG, some PJOK, some PJACK], []⟩)).2.connectTimes
      = [10000, 10250])
    ∧ ((10250 : ℤ) - 10000 < 750) := by
  have h : connectDev [] (mkSt ⟨[true, true], [some PJNG, some PJOK, some PJACK], []⟩) =
      (.ok (),
        { connected := true, keepalive := none, last := 10000, now := 10250,
          env := ⟨[], [], []⟩, writes := [PJREQ],
          connectTimes := [10000, 10250], greetReads := 2, sleeps := [250] }) := by
    rw [connectDev_start []
      (mkSt ⟨[true, true], [some PJNG, some PJOK, some PJACK], []⟩)
      { connected := false, keepalive := none, last := 10000, now := 10000,
        env := ⟨[true, true], [some PJNG, some PJOK, some PJACK], []⟩, writes := [],
        connectTimes := [], greetReads := 0, sleeps := [] }
      rfl rfl]
    rw [connectAttempts_step_busy [] 9 0
      { connected := false, keepalive := none, last := 10000, now := 10000,
        env := ⟨[true, true], [some PJNG, some PJOK, some PJACK], []⟩, writes := [],
        connectTimes := [], greetReads := 0, sleeps := [] }
      { connected := true, keepalive := none, last := 10000, now := 10250,
        env := ⟨[true], [some PJOK, some PJACK], []⟩, writes := [],
        connectTimes := [10000], greetReads := 1, sleeps := [250] }
      rfl]
    rw [connectAttempts_step_ok [] 8 1
      { connected := true, keepalive := none, last := 10000, now := 10250,
        env := ⟨[true], [some PJOK, some PJACK], []⟩, writes := [],
        connectTimes := [10000], greetReads := 1, sleeps := [250] }
      { connected := true, keepalive := none, last := 10000, now := 10250,
        env := ⟨[], [], []⟩, writes := [PJREQ],
        connectTimes := [10000, 10250], greetReads := 2, sleeps := [250] }
      rfl]
  rw [h]
  exact ⟨rfl, by decide⟩

/-- C5 (amended): the 0.75 s (750 ms) floor holds between `_connect()`
invocations, not between in-loop retries: before the retry loop the rate
limiter waits until at least 750 ms past the previous stamp, updates the
stamp to the post-wait clock, and the invocation’s first physical connect
attempt is issued exactly at the stamped time. -/
theorem C5_rate_limit_floor_per_invocation (auth : Bytes) (s : St)
    (h : s.connected = false) :
    (rateLimit s).2.last = (rateLimit s).2.now
    ∧ (rateLimit s).2.now - s.last ≥ 750
    ∧ ∃ t, (connectDev auth s).2.connectTimes
        = s.connectTimes ++ (rateLimit s).2.now :: t := by
  obtain ⟨h1, h2, h3⟩ := rateLimit_floor s
  refine ⟨h1, h2, ?_⟩
  rw [connectDev_start auth s (rateLimit s).2 h rfl]
  obtain ⟨t, ht⟩ := connectAttempts_first auth 9 0 (rateLimit s).2
  refine ⟨t, ?_⟩
  rw [ht, h3]

theorem C5_rate_limit_floor_per_invocation_witness :
    (rateLimit (mkSt ⟨[], [], []⟩)).2.last = (rateLimit (mkSt ⟨[], [], []⟩)).2.now
    ∧ (rateLimit (mkSt ⟨[], [], []⟩)).2.now - (mkSt ⟨[], [], []⟩).last ≥ 750
    ∧ ∃ t, (connectDev [] (mkSt ⟨[], [], []⟩)).2.connectTimes
        = (mkSt ⟨[], [], []⟩).connectTimes ++ (rateLimit (mkSt ⟨[], [], []⟩)).2.now :: t :=
  C5_rate_limit_floor_per_invocation [] (mkSt ⟨[], [], []⟩) rfl

/-- C1: on a nak the fallback credential actually sent on the second attempt
is the hex SHA-256 of the *null-padded* credential bytes concatenated with
the salt — for the 8-character password "passwd78" this differs from the
digest of the raw password concatenated with the salt, contradicting the
specified behaviour. -/
theorem C1_fallback_hashes_padded_credential :
    ((authenticate (mkAuth "passwd78")
        (mkSt ⟨[], [some PJNAK, some PJACK], []⟩)).1 = .ok ())
    ∧ ((authenticate (mkAuth "passwd78")
        (mkSt ⟨[], [some PJNAK, some PJACK], []⟩)).2.writes
      = [PJREQ ++ mkAuth "passwd78",
         PJREQ ++ strBytes (sha256hex (strBytes ("passwd78" ++ "\x00\x00" ++ AUTH_SALT)))])
    ∧ strBytes (sha256hex (strBytes ("passwd78" ++ "\x00\x00" ++ AUTH_SALT)))
      ≠ strBytes (sha256hex (strBytes ("passwd78" ++ AUTH_SALT))) :=
  ⟨rfl, by decide, by decide⟩

/-- C9: a query's decoded response is the raw payload when no formatter
pattern matches, the formatter's value when the first matching formatter
succeeds, and falls back to the raw payload (without raising) when the
matching formatter fails. -/
theorem C9_response_formatter_fallback (fs : List FmtEntry) (cmd : Cmd) (p : String)
    (href : cmd.is_ref = true) :
    (findMatch fs (cmd.code ++ p) = none → respond fs cmd (some p) = some p)
    ∧ (∀ (e : FmtEntry) (m1 v : String), findMatch fs (cmd.code ++ p) = some (e, m1) →
        applyFmt e.fmt m1 = some v → respond fs cmd (some p) = some v)
    ∧ (∀ (e : FmtEntry) (m1 : String), findMatch fs (cmd.code ++ p) = some (e, m1) →
        applyFmt e.fmt m1 = none → respond fs cmd (some p) = some p) := by
  have hval : strDrop (cmd.code ++ p) cmd.code.length = p := strDrop_append _ _
  refine ⟨?_, ?_, ?_⟩
  · intro h
    simp only [respond, href, Bool.not_true, Bool.false_eq_true, if_false, h, hval]
  · intro e m1 v hm ha
    simp only [respond, href, Bool.not_true, Bool.false_eq_true, if_false, hm, ha,
      Option.getD_some]
  · intro e m1 hm ha
    simp only [respond, href, Bool.not_true, Bool.false_eq_true, if_false, hm, ha,
      Option.getD_none, hval]

theorem C9_response_formatter_fallback_witness :
    respond [⟨"PW", .exactly 1, .map [("0", "standby"), ("1", "on")]⟩]
      ⟨"PW", true⟩ (some "1") = some "on" :=
  (C9_response_formatter_fallback
      [⟨"PW", .exactly 1, .map [("0", "standby"), ("1", "on")]⟩] ⟨"PW", true⟩ "1" rfl).2.1
    ⟨"PW", .exactly 1, .map [("0", "standby"), ("1", "on")]⟩ "1" "on" rfl rfl

end Jvc